import Mathlib

/-!
Verification of the VitalSignExtract vital-sign extraction pipeline.

Shallow embedding of:
- `src/main.cpp` (token classification, spatial association, validation and
  fallback in `processFrame`; camera startup, exit codes, ML-classification
  augmentation, output fan-out with database retry in `main`),
- `src/src/config/ConfigManager.cpp` (string lookup with defaults,
  `getVitalSignLabels`, `getDefaultSpO2`),
- `src/src/database/DatabaseManager.cpp` (`reconnect`).

Conventions: C++ `int` coordinates and the OCR confidence are modelled as `ℤ`
(the source's `float` confidence is compared against an integer threshold; all
inputs considered here are integer-valued).  ML confidences (`float` in
`[0,1]`) are modelled as `ℚ`.  `double` distances: the source compares
`sqrt((x1-x2)^2 + (y1-y2)^2)` values with strict `<`; we work with the squared
distance, which induces exactly the same comparisons since `Real.sqrt` is
strictly monotone on nonnegative arguments (`calculateDistanceSq_sqrt_lt_iff`
below).
-/

namespace VitalSignExtract

/-! ### Regex embeddings (main.cpp:40-41)

`spo2_pattern` is `\bsp[o0]2\b` with `regex_constants::icase`, used via
`regex_search` (substring search with word boundaries).
`bp_pattern` is `^\d{2,3}/\d{2,3}$`, used via `regex_match` (whole string). -/

/-- Regex word character (`\w`): ASCII alphanumeric or underscore. -/
def isWordChar (c : Char) : Bool := c.isAlphanum || c = '_'

/-- Case-insensitive match of one four-character window against `sp[o0]2`. -/
def spo2Core (a b c d : Char) : Bool :=
  (a.toLower = 's') && (b.toLower = 'p') && (c.toLower = 'o' || c = '0') && (d = '2')

/-- Scan for `\bsp[o0]2\b` at any position; `prev` is the character before the
current window (`none` at the start of the string), used for the left word
boundary; the right boundary checks the character after the window. -/
def spo2SearchAux : Option Char → List Char → Bool
  | prev, a :: b :: c :: d :: rest =>
    (spo2Core a b c d
      && (match prev with | none => true | some p => !isWordChar p)
      && (match rest with | [] => true | e :: _ => !isWordChar e))
    || spo2SearchAux (some a) (b :: c :: d :: rest)
  | _, _ => false

/-- `regex_search(word, spo2_pattern)` (main.cpp:106). -/
def regexSearchSpO2 (s : String) : Bool := spo2SearchAux none s.data

/-- `regex_match(s, bp_pattern)` with `bp_pattern = ^\d{2,3}/\d{2,3}$`
(main.cpp:41): 2-3 digits, a slash, 2-3 digits, nothing else. -/
def matchesBP (s : String) : Bool :=
  match s.data.dropWhile (fun c => c != '/') with
  | '/' :: post =>
    (let pre := s.data.takeWhile (fun c => c != '/')
     decide (2 ≤ pre.length) && decide (pre.length ≤ 3) && pre.all Char.isDigit &&
     decide (2 ≤ post.length) && decide (post.length ≤ 3) && post.all Char.isDigit)
  | _ => false

/-- `word.find("/") != string::npos` (main.cpp:110). -/
def containsSlash (s : String) : Bool := decide ('/' ∈ s.data)

/-! ### Data model (main.cpp:49-53) -/

/-- `struct DetectedText { string word; int x, y, w, h; }` (main.cpp:50-53). -/
structure DetectedText where
  word : String
  x : Int
  y : Int
  w : Int
  h : Int
deriving DecidableEq

/-- An OCR token as delivered by the Tesseract iterator: text, bounding box and
confidence (main.cpp:96-103). -/
structure OCRToken where
  word : String
  x : Int
  y : Int
  w : Int
  h : Int
  conf : Int
deriving DecidableEq

/-- `calculateDistance` (main.cpp:56-58) computes
`sqrt(pow(x1-x2,2) + pow(y1-y2,2))`; this is the value under the square root.
All uses compare two distances with strict `<`, and `Real.sqrt` is strictly
monotone on nonnegative reals, so comparing squared distances is equivalent
(see `calculateDistanceSq_sqrt_lt_iff`). -/
def calculateDistanceSq (x1 y1 x2 y2 : Int) : Int :=
  (x1 - x2) * (x1 - x2) + (y1 - y2) * (y1 - y2)

/-- One iteration of the loop in `findClosestNumber` (main.cpp:67-73).  The
accumulator carries `closestNum` and `minDistance`; the initial
`numeric_limits<double>::max()` is modelled as `none`, which every computed
distance beats. -/
def closestStep (labelData : DetectedText) (acc : String × Option Int)
    (num : DetectedText) : String × Option Int :=
  match acc.2 with
  | none => (num.word, some (calculateDistanceSq labelData.x labelData.y num.x num.y))
  | some m =>
    if calculateDistanceSq labelData.x labelData.y num.x num.y < m then
      (num.word, some (calculateDistanceSq labelData.x labelData.y num.x num.y))
    else acc

/-- `findClosestNumber` (main.cpp:61-75): `"0"` on an empty candidate list,
otherwise the word of the candidate at minimal distance from the label, the
first such candidate winning ties (updates only on strict `<`). -/
def findClosestNumber (labelData : DetectedText) (detectedNumbers : List DetectedText) :
    String :=
  if detectedNumbers.isEmpty then "0"
  else (detectedNumbers.foldl (closestStep labelData) ("0", none)).1

/-! ### ConfigManager (src/src/config/ConfigManager.cpp) -/

/-- The `ConfigManager` state: the `config_` key-value map filled by
`parseJSON` and the `loaded_` flag. -/
structure ConfigState where
  config : List (String × String)
  loaded : Bool

/-- `ConfigManager::getString` (ConfigManager.cpp:147-150): the stored value if
present and non-empty, the default otherwise. -/
def getString (cfg : ConfigState) (key defaultValue : String) : String :=
  match cfg.config.lookup key with
  | some v => if v = "" then defaultValue else v
  | none => defaultValue

/-- `ConfigManager::getVitalSignLabels` (ConfigManager.cpp:209-211): a
hard-coded list, independent of the configuration state. -/
def getVitalSignLabels (_cfg : ConfigState) : List String := ["HR", "SpO2", "ABP"]

/-- `ConfigManager::getDefaultSpO2` (ConfigManager.cpp:208). -/
def getDefaultSpO2 (cfg : ConfigState) : String :=
  getString cfg "vital_signs.default_spo2" "81"

/-! ### processFrame (main.cpp:78-138) -/

/-- The per-frame scan state: the `detectedLabels` map (with the sentinel
`{"", -1, -1, -1, -1}` the code installs for every configured label,
main.cpp:84-86) and the `detectedNumbers` list. -/
structure FrameScan where
  detectedLabels : String → DetectedText
  detectedNumbers : List DetectedText

/-- Functional update of a string-keyed map. -/
def update {α : Type} (m : String → α) (k : String) (v : α) : String → α :=
  fun l => if l = k then v else m l

/-- Classification of one OCR token (main.cpp:100-113): tokens at or below the
confidence threshold are dropped; otherwise the first matching rule applies —
SpO2 spelling variant, exact configured label, BP pattern or slash, else
ignored. -/
def scanToken (labelsL : List String) (th : Int) (st : FrameScan) (t : OCRToken) :
    FrameScan :=
  if t.conf > th then
    if regexSearchSpO2 t.word then
      { st with detectedLabels := update st.detectedLabels "SpO2" ⟨t.word, t.x, t.y, t.w, t.h⟩ }
    else if labelsL.contains t.word then
      { st with detectedLabels := update st.detectedLabels t.word ⟨t.word, t.x, t.y, t.w, t.h⟩ }
    else if matchesBP t.word || containsSlash t.word then
      { st with detectedNumbers := st.detectedNumbers ++ [⟨t.word, t.x, t.y, t.w, t.h⟩] }
    else st
  else st

/-- The scan over all tokens of a frame (main.cpp:93-116). -/
def scanTokens (labelsL : List String) (th : Int) (tokens : List OCRToken) : FrameScan :=
  tokens.foldl (scanToken labelsL th) ⟨fun _ => ⟨"", -1, -1, -1, -1⟩, []⟩

/-- The association loop (main.cpp:119-121):
`extractedValues[label] = findClosestNumber(detectedLabels[label], detectedNumbers)`
for each configured label, over the default-`""` map `extractedValues`. -/
def associatedValues (labelsL : List String) (th : Int) (tokens : List OCRToken) :
    String → String :=
  labelsL.foldl
    (fun m label => update m label
      (findClosestNumber ((scanTokens labelsL th tokens).detectedLabels label)
        ((scanTokens labelsL th tokens).detectedNumbers)))
    (fun _ => "")

/-- Validation and fallback (main.cpp:124-135): a malformed ABP zeroes the
record; otherwise a `"0"`/empty SpO2 is replaced by `last_spo2_value`, and a
valid SpO2 is stored into `last_spo2_value`.  Returns the final
`extractedValues` map and the new `last_spo2_value`. -/
def validate (m : String → String) (last : String) : (String → String) × String :=
  if matchesBP (m "ABP") = false then
    (update (update (update m "HR" "0") "SpO2" "0") "ABP" "0", last)
  else if m "SpO2" = "0" ∨ m "SpO2" = "" then
    (update m "SpO2" last, last)
  else
    (m, m "SpO2")

/-- `processFrame` (main.cpp:78-138) over the token list the OCR collaborator
produced for the frame, together with the `last_spo2_value` state it reads and
writes. -/
def processFrame (labelsL : List String) (th : Int) (tokens : List OCRToken)
    (last : String) : (String → String) × String :=
  validate (associatedValues labelsL th tokens) last

/-- The condition under which main.cpp:133 overwrites `last_spo2_value`:
well-formed ABP and an associated SpO2 that is neither `"0"` nor empty. -/
def updatesFallback (labelsL : List String) (th : Int) (tokens : List OCRToken) : Bool :=
  matchesBP (associatedValues labelsL th tokens "ABP") &&
    !(decide (associatedValues labelsL th tokens "SpO2" = "0") ||
      decide (associatedValues labelsL th tokens "SpO2" = ""))

/-- The evolution of `last_spo2_value` across a sequence of sampled frames
(each given by its token list), from an initial value. -/
def runFrames (labelsL : List String) (th : Int) (frames : List (List OCRToken))
    (init : String) : String :=
  frames.foldl (fun s f => (processFrame labelsL th f s).2) init

/-! ### Startup and exit codes (main.cpp:194-284, 420-434) -/

/-- The outcomes of the external calls `main` makes during startup.
`cameraAttemptOk a` is the result of the `a`-th `cap.open` attempt inside the
camera-opening retry loop (main.cpp:166-188); `reconnectAttempts` is
`config.getReconnectAttempts()`.  `csvEnabled`/`csvOpenOk` model
`config.isCSVEnabled()` and whether `csvFile.open` succeeds. -/
structure StartupEnv where
  configLoadOk : Bool
  ocrInitOk : Bool
  dbEnabled : Bool
  dbInitOk : Bool
  reconnectAttempts : Nat
  cameraAttemptOk : Nat → Bool
  csvEnabled : Bool
  csvOpenOk : Bool

/-- Whether the camera-opening retry loop (main.cpp:166-188) returns an opened
capture: some attempt `1..reconnectAttempts` succeeds (the loop returns at the
first success). -/
def cameraOpened (e : StartupEnv) : Bool :=
  (List.range e.reconnectAttempts).any fun a => e.cameraAttemptOk (a + 1)

/-- The exit code of `main` as a function of the startup outcomes, with the
processing loop abstracted away: `return -1` on OCR init failure
(main.cpp:233-236) and on camera exhaustion (main.cpp:266-271); a config-load
failure only logs (main.cpp:203-206), a database init failure only disables
the database (main.cpp:258-261), and a CSV open failure only logs
(main.cpp:274-284) — in all those cases the loop is reached, and every loop
exit falls through to the cleanup code that ends in `return 0`
(main.cpp:420-434). -/
def mainExitCode (e : StartupEnv) : Int :=
  if e.ocrInitOk = false then -1
  else if cameraOpened e = false then -1
  else 0

/-! ### DatabaseManager::reconnect (DatabaseManager.cpp:239-260) -/

/-- The reconnect loop from attempt number `attempt` with `fuel` attempts left:
returns the number of `connect()` calls made and whether one succeeded (the
loop returns at the first success). -/
def reconnectFrom (connectOk : Nat → Bool) : Nat → Nat → Nat × Bool
  | _, 0 => (0, false)
  | attempt, fuel + 1 =>
    if connectOk attempt then (1, true)
    else ((reconnectFrom connectOk (attempt + 1) fuel).1 + 1,
          (reconnectFrom connectOk (attempt + 1) fuel).2)

/-- `DatabaseManager::reconnect(maxAttempts, delayMs)`: attempts are numbered
`1..maxAttempts`; `connectOk a` is the outcome of the `connect()` call of
attempt `a`. -/
def reconnect (maxAttempts : Nat) (connectOk : Nat → Bool) : Nat × Bool :=
  reconnectFrom connectOk 1 maxAttempts

/-! ### Output fan-out (main.cpp:368-404) -/

/-- `struct VitalSignData` (DatabaseManager.h), as filled at main.cpp:390-396. -/
structure VitalSignData where
  timestamp : String
  hr : String
  spo2 : String
  abp : String
  ecg_classification : String
  ecg_confidence : ℚ
deriving DecidableEq

/-- Replace the classification fields of a record. -/
def setCls (d : VitalSignData) (c : String) (q : ℚ) : VitalSignData :=
  { d with ecg_classification := c, ecg_confidence := q }

/-- What one pass through the output section (main.cpp:368-404) delivers:
the record handed to the console and CSV sinks (when enabled/open), the rows
that end up in the database, and the number of `insertVitalSign` calls,
reconnect sequences and `connect()` calls made. -/
structure DeliveryResult where
  consoleOut : Option VitalSignData
  csvOut : Option VitalSignData
  dbRows : List VitalSignData
  dbInsertCalls : Nat
  dbReconnectSeqs : Nat
  dbConnectCalls : Nat
deriving DecidableEq

/-- The output section of the sampling loop (main.cpp:368-404): console write,
CSV row, then the database insert with its retry policy — on a failed insert,
one `reconnect` sequence and, only if it succeeds, a single retried insert
whose result is not examined further.  `dbActive` is
`dbEnabled && db.isConnected()` (main.cpp:389); `insert1Ok`/`insert2Ok` are
the outcomes of the two possible `insertVitalSign` calls. -/
def deliverRecord (consoleEnabled csvOpen dbActive insert1Ok : Bool)
    (retryAttempts : Nat) (connectOk : Nat → Bool) (insert2Ok : Bool)
    (data : VitalSignData) : DeliveryResult :=
  if dbActive then
    if insert1Ok then
      ⟨if consoleEnabled then some data else none,
       if csvOpen then some data else none, [data], 1, 0, 0⟩
    else if (reconnect retryAttempts connectOk).2 then
      if insert2Ok then
        ⟨if consoleEnabled then some data else none,
         if csvOpen then some data else none, [data], 2, 1,
         (reconnect retryAttempts connectOk).1⟩
      else
        ⟨if consoleEnabled then some data else none,
         if csvOpen then some data else none, [], 2, 1,
         (reconnect retryAttempts connectOk).1⟩
    else
      ⟨if consoleEnabled then some data else none,
       if csvOpen then some data else none, [], 1, 1,
       (reconnect retryAttempts connectOk).1⟩
  else
    ⟨if consoleEnabled then some data else none,
     if csvOpen then some data else none, [], 0, 0, 0⟩

/-! ### ML classification augmentation (main.cpp:337-366) -/

/-- One iteration of the best-classification scan (main.cpp:352-362): the
accumulator holds `(ecgClassification, ecgConfidence)`, which also carries
`maxConfidence` (the two floats are always updated together); an entry
replaces it only on strictly greater confidence. -/
def pickStep (acc : String × ℚ) (e : String × ℚ) : String × ℚ :=
  if e.2 > acc.2 then e else acc

/-- The scan over the classifier's fixed-length output, starting from the
defaults `("unknown", 0.0)` set at main.cpp:338-339 with `maxConfidence = 0.0`
(main.cpp:351). -/
def pickClassification (results : List (String × ℚ)) : String × ℚ :=
  results.foldl pickStep ("unknown", 0)

/-- The classification attached to a record: the scan result when the model is
enabled and `run_classifier` succeeded (`some results`), the untouched
defaults `("unknown", 0.0)` when the model is disabled or inference failed
(main.cpp:341-366). -/
def classificationResult (mlEnabled : Bool) (inference : Option (List (String × ℚ))) :
    String × ℚ :=
  if mlEnabled then
    match inference with
    | some results => pickClassification results
    | none => ("unknown", 0)
  else ("unknown", 0)

/-! ### Concrete instances used in the scenario theorems -/

/-- The token set of the spec's Scenario A, with positions as given there;
box sizes are immaterial and confidences (90) exceed the default threshold
(50). -/
def scenarioATokens : List OCRToken :=
  [⟨"HR", 0, 0, 10, 10, 90⟩, ⟨"72", 2, 1, 10, 10, 90⟩, ⟨"SpO2", 50, 0, 10, 10, 90⟩,
   ⟨"97", 52, 2, 10, 10, 90⟩, ⟨"ABP", 100, 0, 10, 10, 90⟩, ⟨"120/80", 101, 1, 10, 10, 90⟩]

/-- A single well-formed blood-pressure token. -/
def bpToken : OCRToken := ⟨"120/80", 101, 1, 12, 8, 90⟩

/-- A startup in which everything succeeds except opening the CSV file. -/
def csvFailEnv : StartupEnv :=
  { configLoadOk := true, ocrInitOk := true, dbEnabled := false, dbInitOk := false,
    reconnectAttempts := 5, cameraAttemptOk := fun _ => true,
    csvEnabled := true, csvOpenOk := false }

/-- A startup in which Tesseract initialization fails. -/
def ocrFailEnv : StartupEnv :=
  { csvFailEnv with ocrInitOk := false, csvOpenOk := true }

/-- A startup in which every camera open attempt fails. -/
def cameraFailEnv : StartupEnv :=
  { csvFailEnv with cameraAttemptOk := fun _ => false, csvOpenOk := true }

/-- A sample record for the delivery theorems. -/
def sampleData : VitalSignData :=
  ⟨"2025-01-01 00:00:00", "72", "97", "120/80", "normal", 9/10⟩

/-! ### Lemmas -/

/-! #### Basic lemmas about the embedding -/

theorem update_same {α : Type} (m : String → α) (k : String) (v : α) :
    update m k v k = v := by
  simp [update]

theorem update_other {α : Type} (m : String → α) (k : String) (v : α) (l : String)
    (h : l ≠ k) : update m k v l = m l := by
  simp [update, h]

/-- The source's `double` comparison of `calculateDistance` values agrees with
the `<` comparison of the squared distances embedded here. -/
theorem calculateDistanceSq_sqrt_lt_iff (x1 y1 x2 y2 x3 y3 : Int) :
    Real.sqrt ((calculateDistanceSq x1 y1 x2 y2 : ℤ) : ℝ) <
        Real.sqrt ((calculateDistanceSq x1 y1 x3 y3 : ℤ) : ℝ) ↔
      calculateDistanceSq x1 y1 x2 y2 < calculateDistanceSq x1 y1 x3 y3 := by
  have h2 : (0 : ℝ) ≤ ((calculateDistanceSq x1 y1 x2 y2 : ℤ) : ℝ) := by
    have : (0 : ℤ) ≤ calculateDistanceSq x1 y1 x2 y2 :=
      add_nonneg (mul_self_nonneg _) (mul_self_nonneg _)
    exact_mod_cast this
  rw [Real.sqrt_lt_sqrt_iff h2]
  exact Int.cast_lt

/-- A string matching the BP pattern contains a slash. -/
theorem matchesBP_containsSlash (s : String) (h : matchesBP s = true) :
    containsSlash s = true := by
  unfold matchesBP at h
  split at h
  case h_1 post heq =>
    have hmem : '/' ∈ s.data := by
      have hsplit : s.data.takeWhile (fun c => c != '/') ++
          s.data.dropWhile (fun c => c != '/') = s.data :=
        List.takeWhile_append_dropWhile (fun c => c != '/') s.data
      rw [heq] at hsplit
      rw [← hsplit]
      exact List.mem_append_right _ (List.mem_cons_self _ _)
    simpa [containsSlash] using hmem
  case h_2 => exact absurd h (by simp)

theorem validate_zero (m : String → String) (last : String)
    (hbp : matchesBP (m "ABP") = false) :
    validate m last = (update (update (update m "HR" "0") "SpO2" "0") "ABP" "0", last) := by
  unfold validate
  rw [if_pos hbp]

theorem validate_fallback (m : String → String) (last : String)
    (hbp : matchesBP (m "ABP") = true) (hsp : m "SpO2" = "0" ∨ m "SpO2" = "") :
    validate m last = (update m "SpO2" last, last) := by
  unfold validate
  rw [if_neg (by simp [hbp]), if_pos hsp]

theorem validate_store (m : String → String) (last : String)
    (hbp : matchesBP (m "ABP") = true) (h0 : m "SpO2" ≠ "0") (he : m "SpO2" ≠ "") :
    validate m last = (m, m "SpO2") := by
  unfold validate
  rw [if_neg (by simp [hbp]), if_neg (by simp [h0, he])]

/-- Characterization of the `last_spo2_value` update performed by one frame. -/
theorem processFrame_state (labelsL : List String) (th : Int) (tokens : List OCRToken)
    (last : String) :
    (processFrame labelsL th tokens last).2 =
      if updatesFallback labelsL th tokens then
        associatedValues labelsL th tokens "SpO2"
      else last := by
  unfold processFrame
  cases hbp : matchesBP (associatedValues labelsL th tokens "ABP") with
  | false =>
    rw [validate_zero _ _ hbp]
    have : updatesFallback labelsL th tokens = false := by
      simp [updatesFallback, hbp]
    rw [this]
    simp
  | true =>
    by_cases hsp : associatedValues labelsL th tokens "SpO2" = "0" ∨
        associatedValues labelsL th tokens "SpO2" = ""
    · rw [validate_fallback _ _ hbp hsp]
      have : updatesFallback labelsL th tokens = false := by
        rcases hsp with h | h <;> simp [updatesFallback, h]
      rw [this]
      simp
    · push_neg at hsp
      rw [validate_store _ _ hbp hsp.1 hsp.2]
      have : updatesFallback labelsL th tokens = true := by
        simp [updatesFallback, hbp, hsp.1, hsp.2]
      rw [this]
      simp

/-- If no frame of a run satisfies the update condition, the fallback state is
untouched. -/
theorem runFrames_const (labelsL : List String) (th : Int) :
    ∀ (frames : List (List OCRToken)) (init : String),
      (∀ f ∈ frames, updatesFallback labelsL th f = false) →
      runFrames labelsL th frames init = init := by
  intro frames
  induction frames with
  | nil => intro init _; rfl
  | cons f fs ih =>
    intro init h
    have h1 : updatesFallback labelsL th f = false := h f (List.mem_cons_self _ _)
    have h2 : (processFrame labelsL th f init).2 = init := by
      rw [processFrame_state, h1]
      simp
    show runFrames labelsL th fs (processFrame labelsL th f init).2 = init
    rw [h2]
    exact ih init (fun g hg => h g (List.mem_cons_of_mem _ hg))

/-! ### The association loop as a map -/

theorem foldl_update_notmem (v : String → String) :
    ∀ (ks : List String) (acc : String → String) (l : String), l ∉ ks →
      (ks.foldl (fun m k => update m k (v k)) acc) l = acc l := by
  intro ks
  induction ks with
  | nil => intro acc l _; rfl
  | cons k ks ih =>
    intro acc l hl
    have hne : l ≠ k := fun h => hl (h ▸ List.mem_cons_self _ _)
    have hnot : l ∉ ks := fun h => hl (List.mem_cons_of_mem _ h)
    show (ks.foldl (fun m k => update m k (v k)) (update acc k (v k))) l = acc l
    rw [ih _ l hnot, update_other _ _ _ _ hne]

theorem foldl_update_mem (v : String → String) :
    ∀ (ks : List String) (acc : String → String) (l : String), l ∈ ks →
      (ks.foldl (fun m k => update m k (v k)) acc) l = v l := by
  intro ks
  induction ks with
  | nil => intro acc l hl; exact absurd hl (List.not_mem_nil l)
  | cons k ks ih =>
    intro acc l hl
    show (ks.foldl (fun m k => update m k (v k)) (update acc k (v k))) l = v l
    by_cases hmem : l ∈ ks
    · exact ih _ l hmem
    · have hk : l = k := by
        rcases List.mem_cons.mp hl with h | h
        · exact h
        · exact absurd h hmem
      rw [foldl_update_notmem v ks _ l hmem, hk, update_same]

/-- The associated value of a configured label is the nearest-candidate lookup
for that label's slot. -/
theorem associatedValues_mem (labelsL : List String) (th : Int)
    (tokens : List OCRToken) (l : String) (hl : l ∈ labelsL) :
    associatedValues labelsL th tokens l =
      findClosestNumber ((scanTokens labelsL th tokens).detectedLabels l)
        ((scanTokens labelsL th tokens).detectedNumbers) :=
  foldl_update_mem _ labelsL _ l hl

/-- Every collected `NumberCandidate` comes from a scanned token whose text
contains a slash (branch main.cpp:110-112, noting that the BP pattern itself
forces a slash). -/
theorem scanTokens_numbers (labelsL : List String) (th : Int) :
    ∀ (tokens : List OCRToken) (st : FrameScan) (d : DetectedText),
      d ∈ (tokens.foldl (scanToken labelsL th) st).detectedNumbers →
      d ∈ st.detectedNumbers ∨
        (containsSlash d.word = true ∧ ∃ tok ∈ tokens, d.word = tok.word) := by
  intro tokens
  induction tokens with
  | nil => intro st d h; exact Or.inl h
  | cons t ts ih =>
    intro st d h
    rcases ih (scanToken labelsL th st t) d h with h1 | ⟨hs, tok, htok, hw⟩
    · -- d came from the state after scanning t: case on the branches
      unfold scanToken at h1
      split at h1
      · split at h1
        · exact Or.inl h1
        · split at h1
          · exact Or.inl h1
          · split at h1
            case isTrue hcond =>
              rcases List.mem_append.mp h1 with h2 | h2
              · exact Or.inl h2
              · have hd : d = ⟨t.word, t.x, t.y, t.w, t.h⟩ := List.mem_singleton.mp h2
                have hslash : containsSlash d.word = true := by
                  rw [hd]
                  rcases Bool.or_eq_true_iff.mp hcond with hm | hc
                  · exact matchesBP_containsSlash _ hm
                  · exact hc
                exact Or.inr ⟨hslash, t, List.mem_cons_self _ _, by rw [hd]⟩
            · exact Or.inl h1
      · exact Or.inl h1
    · exact Or.inr ⟨hs, tok, List.mem_cons_of_mem _ htok, hw⟩

/-- The first component of the `findClosestNumber` fold is the initial
`closestNum` or the word of some candidate. -/
theorem foldl_closest_fst (lab : DetectedText) :
    ∀ (nums : List DetectedText) (acc : String × Option Int),
      (nums.foldl (closestStep lab) acc).1 = acc.1 ∨
        ∃ d ∈ nums, (nums.foldl (closestStep lab) acc).1 = d.word := by
  intro nums
  induction nums with
  | nil => intro acc; exact Or.inl rfl
  | cons n ns ih =>
    intro acc
    have hstep : (closestStep lab acc n).1 = acc.1 ∨ (closestStep lab acc n).1 = n.word := by
      rcases acc with ⟨w, mo⟩
      cases mo with
      | none => exact Or.inr rfl
      | some m =>
        by_cases hlt : calculateDistanceSq lab.x lab.y n.x n.y < m
        · exact Or.inr (by simp [closestStep, hlt])
        · exact Or.inl (by simp [closestStep, hlt])
    have hfold : (List.foldl (closestStep lab) acc (n :: ns)).1 =
        (List.foldl (closestStep lab) (closestStep lab acc n) ns).1 := rfl
    rcases ih (closestStep lab acc n) with h1 | ⟨d, hd, h1⟩
    · rcases hstep with h2 | h2
      · exact Or.inl (by rw [hfold, h1, h2])
      · exact Or.inr ⟨n, List.mem_cons_self _ _, by rw [hfold, h1, h2]⟩
    · exact Or.inr ⟨d, List.mem_cons_of_mem _ hd, by rw [hfold, h1]⟩

theorem findClosestNumber_mem (lab : DetectedText) (nums : List DetectedText) :
    findClosestNumber lab nums = "0" ∨
      ∃ d ∈ nums, findClosestNumber lab nums = d.word := by
  unfold findClosestNumber
  split
  · exact Or.inl rfl
  · rcases foldl_closest_fst lab nums ("0", none) with h | ⟨d, hd, h⟩
    · exact Or.inl h
    · exact Or.inr ⟨d, hd, h⟩

/-- The value associated to any configured label is `"0"` or the text of some
input token containing a slash. -/
theorem associated_cases (th : Int) (tokens : List OCRToken) (l : String)
    (hl : l ∈ (["HR", "SpO2", "ABP"] : List String)) :
    associatedValues ["HR", "SpO2", "ABP"] th tokens l = "0" ∨
      ∃ tok ∈ tokens, associatedValues ["HR", "SpO2", "ABP"] th tokens l = tok.word ∧
        containsSlash tok.word = true := by
  rw [associatedValues_mem _ th tokens l hl]
  rcases findClosestNumber_mem ((scanTokens ["HR", "SpO2", "ABP"] th tokens).detectedLabels l)
      ((scanTokens ["HR", "SpO2", "ABP"] th tokens).detectedNumbers) with h0 | ⟨d, hd, hw⟩
  · exact Or.inl h0
  · rcases scanTokens_numbers ["HR", "SpO2", "ABP"] th tokens _ d hd with habs | ⟨hs, tok, htok, hww⟩
    · exact absurd habs (List.not_mem_nil d)
    · exact Or.inr ⟨tok, htok, by rw [hw, hww], by rw [← hww]; exact hs⟩

/-- Starting from any initial value, the fallback state after a run is the
initial value or the slash-containing text of some token of some frame. -/
theorem runFrames_chars (th : Int) :
    ∀ (frames : List (List OCRToken)) (init : String),
      runFrames ["HR", "SpO2", "ABP"] th frames init = init ∨
        ∃ f ∈ frames, ∃ t ∈ f,
          runFrames ["HR", "SpO2", "ABP"] th frames init = t.word ∧
            containsSlash t.word = true := by
  intro frames
  induction frames with
  | nil => intro init; exact Or.inl rfl
  | cons f fs ih =>
    intro init
    have hstep : (processFrame ["HR", "SpO2", "ABP"] th f init).2 = init ∨
        ∃ t ∈ f, (processFrame ["HR", "SpO2", "ABP"] th f init).2 = t.word ∧
          containsSlash t.word = true := by
      rw [processFrame_state]
      cases hu : updatesFallback ["HR", "SpO2", "ABP"] th f with
      | false => simp
      | true =>
        simp only [if_pos rfl]
        have hne : associatedValues ["HR", "SpO2", "ABP"] th f "SpO2" ≠ "0" := by
          intro h0
          simp [updatesFallback, h0] at hu
        rcases associated_cases th f "SpO2" (by simp) with h0 | ⟨tok, htok, hw, hs⟩
        · exact absurd h0 hne
        · exact Or.inr ⟨tok, htok, hw, hs⟩
    have hrun : runFrames ["HR", "SpO2", "ABP"] th (f :: fs) init =
        runFrames ["HR", "SpO2", "ABP"] th fs
          (processFrame ["HR", "SpO2", "ABP"] th f init).2 := rfl
    rcases ih (processFrame ["HR", "SpO2", "ABP"] th f init).2 with h1 | ⟨f', hf', t, ht, heq, hs⟩
    · rcases hstep with h2 | ⟨t, ht, h2, hs⟩
      · exact Or.inl (by rw [hrun, h1, h2])
      · exact Or.inr ⟨f, List.mem_cons_self _ _, t, ht, by rw [hrun, h1, h2], hs⟩
    · exact Or.inr ⟨f', List.mem_cons_of_mem _ hf', t, ht, by rw [hrun, heq], hs⟩

/-! ### The nearest-candidate argmin -/

/-- Invariant of the `findClosestNumber` loop from an already-set minimum:
either no candidate beats the carried minimum and the accumulator survives,
or the result is the earliest candidate attaining the minimal distance,
strictly below the carried minimum, with every earlier candidate strictly
farther. -/
theorem closest_aux (lab : DetectedText) :
    ∀ (nums : List DetectedText) (w : String) (m : Int),
      (nums.foldl (closestStep lab) (w, some m) = (w, some m) ∧
        ∀ n ∈ nums, m ≤ calculateDistanceSq lab.x lab.y n.x n.y) ∨
      (∃ pre c post, nums = pre ++ c :: post ∧
        nums.foldl (closestStep lab) (w, some m) =
          (c.word, some (calculateDistanceSq lab.x lab.y c.x c.y)) ∧
        calculateDistanceSq lab.x lab.y c.x c.y < m ∧
        (∀ n ∈ nums, calculateDistanceSq lab.x lab.y c.x c.y ≤
          calculateDistanceSq lab.x lab.y n.x n.y) ∧
        (∀ n ∈ pre, calculateDistanceSq lab.x lab.y c.x c.y <
          calculateDistanceSq lab.x lab.y n.x n.y)) := by
  intro nums
  induction nums with
  | nil => intro w m; exact Or.inl ⟨rfl, by simp⟩
  | cons n ns ih =>
    intro w m
    have hfold : List.foldl (closestStep lab) (w, some m) (n :: ns) =
        List.foldl (closestStep lab) (closestStep lab (w, some m) n) ns := rfl
    by_cases hd : calculateDistanceSq lab.x lab.y n.x n.y < m
    · have hs : closestStep lab (w, some m) n =
          (n.word, some (calculateDistanceSq lab.x lab.y n.x n.y)) := by
        simp [closestStep, hd]
      rcases ih n.word (calculateDistanceSq lab.x lab.y n.x n.y) with
        ⟨heq, hall⟩ | ⟨pre, c, post, hsplit, heq, hlt, hle, hstrict⟩
      · refine Or.inr ⟨[], n, ns, rfl, ?_, hd, ?_, by simp⟩
        · rw [hfold, hs, heq]
        · intro x hx
          rcases List.mem_cons.mp hx with rfl | hx
          · exact le_refl _
          · exact hall x hx
      · refine Or.inr ⟨n :: pre, c, post, by rw [hsplit, List.cons_append], ?_, lt_trans hlt hd, ?_, ?_⟩
        · rw [hfold, hs, heq]
        · intro x hx
          rcases List.mem_cons.mp hx with rfl | hx
          · exact le_of_lt hlt
          · exact hle x hx
        · intro x hx
          rcases List.mem_cons.mp hx with rfl | hx
          · exact hlt
          · exact hstrict x hx
    · have hs : closestStep lab (w, some m) n = (w, some m) := by
        simp [closestStep, hd]
      have hm : m ≤ calculateDistanceSq lab.x lab.y n.x n.y := not_lt.mp hd
      rcases ih w m with ⟨heq, hall⟩ | ⟨pre, c, post, hsplit, heq, hlt, hle, hstrict⟩
      · refine Or.inl ⟨by rw [hfold, hs, heq], ?_⟩
        intro x hx
        rcases List.mem_cons.mp hx with rfl | hx
        · exact hm
        · exact hall x hx
      · refine Or.inr ⟨n :: pre, c, post, by rw [hsplit, List.cons_append], by rw [hfold, hs, heq], hlt, ?_, ?_⟩
        · intro x hx
          rcases List.mem_cons.mp hx with rfl | hx
          · exact le_of_lt (lt_of_lt_of_le hlt hm)
          · exact hle x hx
        · intro x hx
          rcases List.mem_cons.mp hx with rfl | hx
          · exact lt_of_lt_of_le hlt hm
          · exact hstrict x hx

/-- On a nonempty candidate list `findClosestNumber` returns the word of the
earliest candidate minimizing the distance to the label. -/
theorem findClosestNumber_argmin (lab : DetectedText) (nums : List DetectedText)
    (h : nums ≠ []) :
    ∃ pre c post, nums = pre ++ c :: post ∧
      findClosestNumber lab nums = c.word ∧
      (∀ n ∈ nums, calculateDistanceSq lab.x lab.y c.x c.y ≤
        calculateDistanceSq lab.x lab.y n.x n.y) ∧
      (∀ n ∈ pre, calculateDistanceSq lab.x lab.y c.x c.y <
        calculateDistanceSq lab.x lab.y n.x n.y) := by
  obtain ⟨n, ns, rfl⟩ := List.exists_cons_of_ne_nil h
  have h1 : findClosestNumber lab (n :: ns) =
      (List.foldl (closestStep lab)
        (n.word, some (calculateDistanceSq lab.x lab.y n.x n.y)) ns).1 := rfl
  rcases closest_aux lab ns n.word (calculateDistanceSq lab.x lab.y n.x n.y) with
    ⟨heq, hall⟩ | ⟨pre, c, post, hsplit, heq, hlt, hle, hstrict⟩
  · refine ⟨[], n, ns, rfl, by rw [h1, heq], ?_, by simp⟩
    intro x hx
    rcases List.mem_cons.mp hx with rfl | hx
    · exact le_refl _
    · exact hall x hx
  · refine ⟨n :: pre, c, post, by rw [hsplit, List.cons_append], by rw [h1, heq], ?_, ?_⟩
    · intro x hx
      rcases List.mem_cons.mp hx with rfl | hx
      · exact le_of_lt hlt
      · exact hle x hx
    · intro x hx
      rcases List.mem_cons.mp hx with rfl | hx
      · exact hlt
      · exact hstrict x hx

theorem reconnectFrom_le (connectOk : Nat → Bool) :
    ∀ (fuel attempt : Nat), (reconnectFrom connectOk attempt fuel).1 ≤ fuel := by
  intro fuel
  induction fuel with
  | zero => intro attempt; simp [reconnectFrom]
  | succ n ih =>
    intro attempt
    unfold reconnectFrom
    split
    · simp
    · have := ih (attempt + 1)
      simpa using Nat.succ_le_succ this

/-- The reconnect sequence is bounded: it makes at most `maxAttempts`
`connect()` calls. -/
theorem reconnect_le (maxAttempts : Nat) (connectOk : Nat → Bool) :
    (reconnect maxAttempts connectOk).1 ≤ maxAttempts :=
  reconnectFrom_le connectOk maxAttempts 1

/-- Invariant of the best-classification scan: either no entry strictly beats
the accumulator's confidence and the accumulator survives, or the result is
the earliest entry attaining the maximal confidence, strictly above the
accumulator, with every earlier entry strictly below it. -/
theorem pick_aux :
    ∀ (l : List (String × ℚ)) (acc : String × ℚ),
      (l.foldl pickStep acc = acc ∧ ∀ e ∈ l, e.2 ≤ acc.2) ∨
      (∃ pre c post, l = pre ++ c :: post ∧
        l.foldl pickStep acc = c ∧ acc.2 < c.2 ∧
        (∀ e ∈ l, e.2 ≤ c.2) ∧ (∀ e ∈ pre, e.2 < c.2)) := by
  intro l
  induction l with
  | nil => intro acc; exact Or.inl ⟨rfl, by simp⟩
  | cons n ns ih =>
    intro acc
    have hfold : List.foldl pickStep acc (n :: ns) =
        List.foldl pickStep (pickStep acc n) ns := rfl
    by_cases hd : n.2 > acc.2
    · have hs : pickStep acc n = n := by simp [pickStep, hd]
      rcases ih n with ⟨heq, hall⟩ | ⟨pre, c, post, hsplit, heq, hlt, hle, hstrict⟩
      · refine Or.inr ⟨[], n, ns, rfl, ?_, hd, ?_, by simp⟩
        · rw [hfold, hs, heq]
        · intro x hx
          rcases List.mem_cons.mp hx with rfl | hx
          · exact le_refl _
          · exact hall x hx
      · refine Or.inr ⟨n :: pre, c, post, by rw [hsplit, List.cons_append], ?_,
          lt_trans hd hlt, ?_, ?_⟩
        · rw [hfold, hs, heq]
        · intro x hx
          rcases List.mem_cons.mp hx with rfl | hx
          · exact le_of_lt hlt
          · exact hle x hx
        · intro x hx
          rcases List.mem_cons.mp hx with rfl | hx
          · exact hlt
          · exact hstrict x hx
    · have hs : pickStep acc n = acc := by simp [pickStep, hd]
      have hm : n.2 ≤ acc.2 := not_lt.mp hd
      rcases ih acc with ⟨heq, hall⟩ | ⟨pre, c, post, hsplit, heq, hlt, hle, hstrict⟩
      · refine Or.inl ⟨by rw [hfold, hs, heq], ?_⟩
        intro x hx
        rcases List.mem_cons.mp hx with rfl | hx
        · exact hm
        · exact hall x hx
      · refine Or.inr ⟨n :: pre, c, post, by rw [hsplit, List.cons_append],
          by rw [hfold, hs, heq], hlt, ?_, ?_⟩
        · intro x hx
          rcases List.mem_cons.mp hx with rfl | hx
          · exact le_of_lt (lt_of_le_of_lt hm hlt)
          · exact hle x hx
        · intro x hx
          rcases List.mem_cons.mp hx with rfl | hx
          · exact lt_of_le_of_lt hm hlt
          · exact hstrict x hx

/-! ### Claim theorems -/

/-- C10: `ConfigManager::getVitalSignLabels` returns exactly
`["HR", "SpO2", "ABP"]`, in that order, for every configuration state —
whatever was parsed into the key-value map and whether or not a configuration
was loaded; the label slots are fixed and not configurable. -/
theorem C10_labels_constant (cfg : ConfigState) :
    getVitalSignLabels cfg = ["HR", "SpO2", "ABP"] := rfl

/-- C2: whenever the value associated to the "ABP" label fails the BP pattern,
the record returned by `processFrame` has HR = SpO2 = ABP = "0", for every
token list (hence regardless of the associated HR and SpO2 values) and every
fallback state. -/
theorem C2_abp_gate (cfg : ConfigState) (th : Int) (tokens : List OCRToken)
    (last : String)
    (h : matchesBP (associatedValues (getVitalSignLabels cfg) th tokens "ABP") = false) :
    (processFrame (getVitalSignLabels cfg) th tokens last).1 "HR" = "0" ∧
    (processFrame (getVitalSignLabels cfg) th tokens last).1 "SpO2" = "0" ∧
    (processFrame (getVitalSignLabels cfg) th tokens last).1 "ABP" = "0" := by
  unfold processFrame
  rw [validate_zero _ _ h]
  dsimp only
  refine ⟨?_, ?_, ?_⟩
  · rw [update_other _ _ _ _ (by decide), update_other _ _ _ _ (by decide), update_same]
  · rw [update_other _ _ _ _ (by decide), update_same]
  · rw [update_same]

/-- Witness for C2: a frame with no tokens associates "0" to ABP, which fails
the pattern, and the returned record is fully zeroed. -/
theorem C2_abp_gate_witness :
    matchesBP (associatedValues (getVitalSignLabels ⟨[], false⟩) 50 [] "ABP") = false ∧
    ((processFrame (getVitalSignLabels ⟨[], false⟩) 50 [] "81").1 "HR" = "0" ∧
     (processFrame (getVitalSignLabels ⟨[], false⟩) 50 [] "81").1 "SpO2" = "0" ∧
     (processFrame (getVitalSignLabels ⟨[], false⟩) 50 [] "81").1 "ABP" = "0") :=
  ⟨by decide, C2_abp_gate ⟨[], false⟩ 50 [] "81" (by decide)⟩

/-- C4: the fallback state `last_spo2_value` is left unchanged by every frame
that does not satisfy the update condition (well-formed ABP and associated
SpO2 neither "0" nor empty) — in particular by a frame zeroed by the ABP gate
and by a frame whose SpO2 was substituted from fallback — and is set to the
associated SpO2 exactly when the condition holds. -/
theorem C4_fallback_invariant (cfg : ConfigState) (th : Int) (tokens : List OCRToken)
    (last : String) :
    (updatesFallback (getVitalSignLabels cfg) th tokens = false →
      (processFrame (getVitalSignLabels cfg) th tokens last).2 = last) ∧
    (matchesBP (associatedValues (getVitalSignLabels cfg) th tokens "ABP") = false →
      (processFrame (getVitalSignLabels cfg) th tokens last).2 = last) ∧
    (matchesBP (associatedValues (getVitalSignLabels cfg) th tokens "ABP") = true →
      (associatedValues (getVitalSignLabels cfg) th tokens "SpO2" = "0" ∨
        associatedValues (getVitalSignLabels cfg) th tokens "SpO2" = "") →
      (processFrame (getVitalSignLabels cfg) th tokens last).2 = last) ∧
    (updatesFallback (getVitalSignLabels cfg) th tokens = true →
      (processFrame (getVitalSignLabels cfg) th tokens last).2 =
        associatedValues (getVitalSignLabels cfg) th tokens "SpO2") := by
  refine ⟨?_, ?_, ?_, ?_⟩
  · intro h
    rw [processFrame_state, h]
    simp
  · intro h
    have hu : updatesFallback (getVitalSignLabels cfg) th tokens = false := by
      simp [updatesFallback, h]
    rw [processFrame_state, hu]
    simp
  · intro _ hsp
    have hu : updatesFallback (getVitalSignLabels cfg) th tokens = false := by
      rcases hsp with h | h <;> simp [updatesFallback, h]
    rw [processFrame_state, hu]
    simp
  · intro h
    rw [processFrame_state, h]
    simp

/-- Witness for C4: an empty frame (zeroed by the gate) leaves the state
untouched; a frame with a lone "120/80" token stores its associated SpO2. -/
theorem C4_fallback_invariant_witness :
    (processFrame (getVitalSignLabels ⟨[], false⟩) 50 [] "81").2 = "81" ∧
    (processFrame (getVitalSignLabels ⟨[], false⟩) 50 [bpToken] "81").2 =
      associatedValues (getVitalSignLabels ⟨[], false⟩) 50 [bpToken] "SpO2" :=
  ⟨(C4_fallback_invariant ⟨[], false⟩ 50 [] "81").1 (by decide),
   (C4_fallback_invariant ⟨[], false⟩ 50 [bpToken] "81").2.2.2 (by decide)⟩

/-- C5: `findClosestNumber` returns "0" on an empty candidate list; on a
nonempty list it returns the text of the candidate minimizing the (squared
Euclidean, equivalently Euclidean) distance to the label position, ties going
to the earliest candidate in scan order; for a label at (0,0) and candidates
at (10,0) and (3,4) it picks the candidate at (3,4). -/
theorem C5_nearest_candidate (lab : DetectedText) (nums : List DetectedText)
    (h : nums ≠ []) :
    findClosestNumber lab [] = "0" ∧
    (∃ pre c post, nums = pre ++ c :: post ∧
      findClosestNumber lab nums = c.word ∧
      (∀ n ∈ nums, calculateDistanceSq lab.x lab.y c.x c.y ≤
        calculateDistanceSq lab.x lab.y n.x n.y) ∧
      (∀ n ∈ pre, calculateDistanceSq lab.x lab.y c.x c.y <
        calculateDistanceSq lab.x lab.y n.x n.y)) ∧
    findClosestNumber ⟨"HR", 0, 0, 0, 0⟩
      [⟨"120/90", 10, 0, 0, 0⟩, ⟨"120/80", 3, 4, 0, 0⟩] = "120/80" :=
  ⟨rfl, findClosestNumber_argmin lab nums h, by decide⟩

/-- Witness for C5 at the two-candidate instance of the claim. -/
theorem C5_nearest_candidate_witness :
    findClosestNumber ⟨"HR", 0, 0, 0, 0⟩ [] = "0" ∧
    findClosestNumber ⟨"HR", 0, 0, 0, 0⟩
      [⟨"120/90", 10, 0, 0, 0⟩, ⟨"120/80", 3, 4, 0, 0⟩] = "120/80" :=
  ⟨(C5_nearest_candidate ⟨"HR", 0, 0, 0, 0⟩
      [⟨"120/90", 10, 0, 0, 0⟩, ⟨"120/80", 3, 4, 0, 0⟩] (by decide)).1,
   (C5_nearest_candidate ⟨"HR", 0, 0, 0, 0⟩
      [⟨"120/90", 10, 0, 0, 0⟩, ⟨"120/80", 3, 4, 0, 0⟩] (by decide)).2.2⟩

/-- C3: on a frame whose associated ABP is well-formed, a "0"/empty associated
SpO2 is replaced in the emitted record by the stored `last_spo2_value` (which
the state leaves untouched), and otherwise the associated SpO2 is emitted
unchanged and stored into `last_spo2_value`; moreover, as long as no frame
since startup satisfied the update condition, the stored value is the
configured default SpO2 that main installs at startup (main.cpp:230). -/
theorem C3_spo2_fallback (cfg : ConfigState) (th : Int) (tokens : List OCRToken)
    (last : String) (frames : List (List OCRToken))
    (h : matchesBP (associatedValues (getVitalSignLabels cfg) th tokens "ABP") = true) :
    ((associatedValues (getVitalSignLabels cfg) th tokens "SpO2" = "0" ∨
        associatedValues (getVitalSignLabels cfg) th tokens "SpO2" = "") →
      (processFrame (getVitalSignLabels cfg) th tokens last).1 "SpO2" = last ∧
      (processFrame (getVitalSignLabels cfg) th tokens last).2 = last) ∧
    (associatedValues (getVitalSignLabels cfg) th tokens "SpO2" ≠ "0" →
      associatedValues (getVitalSignLabels cfg) th tokens "SpO2" ≠ "" →
      (processFrame (getVitalSignLabels cfg) th tokens last).1 "SpO2" =
        associatedValues (getVitalSignLabels cfg) th tokens "SpO2" ∧
      (processFrame (getVitalSignLabels cfg) th tokens last).2 =
        associatedValues (getVitalSignLabels cfg) th tokens "SpO2") ∧
    ((∀ f ∈ frames, updatesFallback (getVitalSignLabels cfg) th f = false) →
      runFrames (getVitalSignLabels cfg) th frames (getDefaultSpO2 cfg) =
        getDefaultSpO2 cfg) := by
  refine ⟨?_, ?_, runFrames_const _ th frames (getDefaultSpO2 cfg)⟩
  · intro hsp
    unfold processFrame
    rw [validate_fallback _ _ h hsp]
    dsimp only
    exact ⟨update_same _ _ _, rfl⟩
  · intro h0 he
    unfold processFrame
    rw [validate_store _ _ h h0 he]
    exact ⟨rfl, rfl⟩

/-- Witness for C3: a frame holding only a "120/80" token has a well-formed
associated ABP; its associated SpO2 ("120/80") is emitted and stored; and a
run of one empty frame leaves the default fallback in place. -/
theorem C3_spo2_fallback_witness :
    matchesBP (associatedValues (getVitalSignLabels ⟨[], false⟩) 50 [bpToken] "ABP") = true ∧
    ((processFrame (getVitalSignLabels ⟨[], false⟩) 50 [bpToken] "81").1 "SpO2" =
       associatedValues (getVitalSignLabels ⟨[], false⟩) 50 [bpToken] "SpO2" ∧
     (processFrame (getVitalSignLabels ⟨[], false⟩) 50 [bpToken] "81").2 =
       associatedValues (getVitalSignLabels ⟨[], false⟩) 50 [bpToken] "SpO2") ∧
    runFrames (getVitalSignLabels ⟨[], false⟩) 50 [[]] (getDefaultSpO2 ⟨[], false⟩) =
      getDefaultSpO2 ⟨[], false⟩ :=
  ⟨by decide,
   (C3_spo2_fallback ⟨[], false⟩ 50 [bpToken] "81" [[]] (by decide)).2.1
     (by decide) (by decide),
   (C3_spo2_fallback ⟨[], false⟩ 50 [bpToken] "81" [[]] (by decide)).2.2
     (by intro f hf; rcases List.mem_singleton.mp hf with rfl; decide)⟩

/-- C1 is refuted by the code: fed through `processFrame`'s own
classification, the digit-only tokens "72" and "97" of Scenario A match no
rule (they contain no slash) and are ignored, so the emitted record is not
{HR:"72", SpO2:"97", ABP:"120/80"}. -/
theorem C1_scenarioA_counterexample :
    ¬ ((processFrame (getVitalSignLabels ⟨[], false⟩) 50 scenarioATokens "81").1 "HR" = "72" ∧
       (processFrame (getVitalSignLabels ⟨[], false⟩) 50 scenarioATokens "81").1 "SpO2" = "97" ∧
       (processFrame (getVitalSignLabels ⟨[], false⟩) 50 scenarioATokens "81").1 "ABP" = "120/80") := by
  decide

/-- C1 (amended): for the Scenario A tokens, "120/80" is the only collected
NumberCandidate — "72" and "97" fall through every classification rule — so
every label associates to it and, for any prior fallback value, the emitted
record is {HR:"120/80", SpO2:"120/80", ABP:"120/80"}, the fallback becoming
"120/80". -/
theorem C1_scenarioA_amended (last : String) :
    (processFrame (getVitalSignLabels ⟨[], false⟩) 50 scenarioATokens last).1 "HR" = "120/80" ∧
    (processFrame (getVitalSignLabels ⟨[], false⟩) 50 scenarioATokens last).1 "SpO2" = "120/80" ∧
    (processFrame (getVitalSignLabels ⟨[], false⟩) 50 scenarioATokens last).1 "ABP" = "120/80" ∧
    (processFrame (getVitalSignLabels ⟨[], false⟩) 50 scenarioATokens last).2 = "120/80" := by
  have hA : associatedValues (getVitalSignLabels ⟨[], false⟩) 50 scenarioATokens "ABP" =
      "120/80" := by decide
  have hS : associatedValues (getVitalSignLabels ⟨[], false⟩) 50 scenarioATokens "SpO2" =
      "120/80" := by decide
  have hH : associatedValues (getVitalSignLabels ⟨[], false⟩) 50 scenarioATokens "HR" =
      "120/80" := by decide
  have hv := validate_store (associatedValues (getVitalSignLabels ⟨[], false⟩) 50 scenarioATokens)
    last (by rw [hA]; decide) (by rw [hS]; decide) (by rw [hS]; decide)
  unfold processFrame
  rw [hv]
  exact ⟨hH, hS, hA, hS⟩

/-- Each field of the record emitted for one frame is "0", the incoming
fallback value, or the slash-containing text of one of the frame's tokens. -/
theorem processFrame_field (th : Int) (tokens : List OCRToken) (last : String)
    (l : String) (hl : l ∈ (["HR", "SpO2", "ABP"] : List String)) :
    (processFrame ["HR", "SpO2", "ABP"] th tokens last).1 l = "0" ∨
    (processFrame ["HR", "SpO2", "ABP"] th tokens last).1 l = last ∨
    ∃ t ∈ tokens, (processFrame ["HR", "SpO2", "ABP"] th tokens last).1 l = t.word ∧
      containsSlash t.word = true := by
  unfold processFrame
  cases hbp : matchesBP (associatedValues ["HR", "SpO2", "ABP"] th tokens "ABP") with
  | false =>
    rw [validate_zero _ _ hbp]
    dsimp only
    left
    fin_cases hl
    · rw [update_other _ _ _ _ (by decide), update_other _ _ _ _ (by decide), update_same]
    · rw [update_other _ _ _ _ (by decide), update_same]
    · rw [update_same]
  | true =>
    by_cases hsp : associatedValues ["HR", "SpO2", "ABP"] th tokens "SpO2" = "0" ∨
        associatedValues ["HR", "SpO2", "ABP"] th tokens "SpO2" = ""
    · rw [validate_fallback _ _ hbp hsp]
      dsimp only
      fin_cases hl
      · rw [update_other _ _ _ _ (by decide)]
        rcases associated_cases th tokens "HR" (by simp) with h0 | ⟨t, ht, hw, hs⟩
        · exact Or.inl h0
        · exact Or.inr (Or.inr ⟨t, ht, hw, hs⟩)
      · rw [update_same]
        exact Or.inr (Or.inl rfl)
      · rw [update_other _ _ _ _ (by decide)]
        rcases associated_cases th tokens "ABP" (by simp) with h0 | ⟨t, ht, hw, hs⟩
        · exact Or.inl h0
        · exact Or.inr (Or.inr ⟨t, ht, hw, hs⟩)
    · push_neg at hsp
      rw [validate_store _ _ hbp hsp.1 hsp.2]
      dsimp only
      fin_cases hl
      · rcases associated_cases th tokens "HR" (by simp) with h0 | ⟨t, ht, hw, hs⟩
        · exact Or.inl h0
        · exact Or.inr (Or.inr ⟨t, ht, hw, hs⟩)
      · rcases associated_cases th tokens "SpO2" (by simp) with h0 | ⟨t, ht, hw, hs⟩
        · exact Or.inl h0
        · exact Or.inr (Or.inr ⟨t, ht, hw, hs⟩)
      · rcases associated_cases th tokens "ABP" (by simp) with h0 | ⟨t, ht, hw, hs⟩
        · exact Or.inl h0
        · exact Or.inr (Or.inr ⟨t, ht, hw, hs⟩)

/-- C9: every field value emitted by `processFrame` is "0", the current
fallback SpO2, or the text of an OCR token containing "/" — digit-only tokens
are never collected as NumberCandidates, hence never emitted from the frame;
and across any run from startup the fallback itself is either the configured
default or a slash-containing token text from some processed frame. -/
theorem C9_field_values (cfg : ConfigState) (th : Int) (tokens : List OCRToken)
    (last : String) (frames : List (List OCRToken)) :
    ((processFrame (getVitalSignLabels cfg) th tokens last).1 "HR" = "0" ∨
     (processFrame (getVitalSignLabels cfg) th tokens last).1 "HR" = last ∨
     ∃ t ∈ tokens, (processFrame (getVitalSignLabels cfg) th tokens last).1 "HR" = t.word ∧
       containsSlash t.word = true) ∧
    ((processFrame (getVitalSignLabels cfg) th tokens last).1 "SpO2" = "0" ∨
     (processFrame (getVitalSignLabels cfg) th tokens last).1 "SpO2" = last ∨
     ∃ t ∈ tokens, (processFrame (getVitalSignLabels cfg) th tokens last).1 "SpO2" = t.word ∧
       containsSlash t.word = true) ∧
    ((processFrame (getVitalSignLabels cfg) th tokens last).1 "ABP" = "0" ∨
     (processFrame (getVitalSignLabels cfg) th tokens last).1 "ABP" = last ∨
     ∃ t ∈ tokens, (processFrame (getVitalSignLabels cfg) th tokens last).1 "ABP" = t.word ∧
       containsSlash t.word = true) ∧
    (runFrames (getVitalSignLabels cfg) th frames (getDefaultSpO2 cfg) = getDefaultSpO2 cfg ∨
     ∃ f ∈ frames, ∃ t ∈ f,
       runFrames (getVitalSignLabels cfg) th frames (getDefaultSpO2 cfg) = t.word ∧
         containsSlash t.word = true) :=
  ⟨processFrame_field th tokens last "HR" (by simp),
   processFrame_field th tokens last "SpO2" (by simp),
   processFrame_field th tokens last "ABP" (by simp),
   runFrames_chars th frames (getDefaultSpO2 cfg)⟩

/-- C6 is refuted on its CSV clause: with OCR and the camera fine but CSV
output enabled and the CSV file failing to open, `main` only logs an error and
still returns 0 — the CSV open failure is not an exit condition
(main.cpp:274-284). -/
theorem C6_exit_counterexample :
    csvFailEnv.csvEnabled = true ∧ csvFailEnv.csvOpenOk = false ∧
    mainExitCode csvFailEnv = 0 := by decide

/-- C6 (amended): `main` exits nonzero (-1) on Tesseract init failure and on
exhaustion of all camera open attempts at startup; when both succeed it
reaches the loop and returns 0 on graceful stop, even if the CSV file could
not be opened while CSV output is enabled. -/
theorem C6_exit_codes (e : StartupEnv) :
    (e.ocrInitOk = false → mainExitCode e = -1) ∧
    (cameraOpened e = false → mainExitCode e = -1) ∧
    ((∀ a, 1 ≤ a → a ≤ e.reconnectAttempts → e.cameraAttemptOk a = false) →
      mainExitCode e = -1) ∧
    (e.ocrInitOk = true → cameraOpened e = true → mainExitCode e = 0) := by
  have hcam : (∀ a, 1 ≤ a → a ≤ e.reconnectAttempts → e.cameraAttemptOk a = false) →
      cameraOpened e = false := by
    intro hall
    cases hb : cameraOpened e with
    | false => rfl
    | true =>
      exfalso
      unfold cameraOpened at hb
      rcases List.any_eq_true.mp hb with ⟨a, ha, hok⟩
      have h1 : 1 ≤ a + 1 := Nat.succ_le_succ (Nat.zero_le a)
      have h2 : a + 1 ≤ e.reconnectAttempts := Nat.succ_le_of_lt (List.mem_range.mp ha)
      rw [hall (a + 1) h1 h2] at hok
      exact Bool.false_ne_true hok
  refine ⟨?_, ?_, ?_, ?_⟩
  · intro h
    simp [mainExitCode, h]
  · intro h
    cases he : e.ocrInitOk <;> simp [mainExitCode, he, h]
  · intro hall
    have h := hcam hall
    cases he : e.ocrInitOk <;> simp [mainExitCode, he, h]
  · intro h1 h2
    simp [mainExitCode, h1, h2]

/-- Witness for C6: OCR failure and camera exhaustion exit -1; the CSV-failure
startup returns 0. -/
theorem C6_exit_codes_witness :
    mainExitCode ocrFailEnv = -1 ∧ mainExitCode cameraFailEnv = -1 ∧
    mainExitCode csvFailEnv = 0 :=
  ⟨(C6_exit_codes ocrFailEnv).1 rfl,
   (C6_exit_codes cameraFailEnv).2.2.1 (fun _ _ _ => rfl),
   (C6_exit_codes csvFailEnv).2.2.2 rfl (by decide)⟩

/-- C7: with the database sink active, a successful first insert stores the
record once with no reconnect; on a failed first insert exactly one (bounded)
reconnect sequence runs, and exactly one retried insert follows exactly when
the reconnect succeeds; a failed retry (or failed reconnect) leaves the
database without the record while the console and CSV deliveries are whatever
their own flags dictate, unaffected by the database outcomes. -/
theorem C7_db_retry (cE csO i1 : Bool) (rA : Nat) (cOk : Nat → Bool) (i2 : Bool)
    (data : VitalSignData) :
    (i1 = true → (deliverRecord cE csO true i1 rA cOk i2 data).dbRows = [data] ∧
      (deliverRecord cE csO true i1 rA cOk i2 data).dbInsertCalls = 1 ∧
      (deliverRecord cE csO true i1 rA cOk i2 data).dbReconnectSeqs = 0) ∧
    (i1 = false → (deliverRecord cE csO true i1 rA cOk i2 data).dbReconnectSeqs = 1 ∧
      (deliverRecord cE csO true i1 rA cOk i2 data).dbConnectCalls ≤ rA) ∧
    (i1 = false → (reconnect rA cOk).2 = true →
      (deliverRecord cE csO true i1 rA cOk i2 data).dbInsertCalls = 2) ∧
    (i1 = false → (reconnect rA cOk).2 = false →
      (deliverRecord cE csO true i1 rA cOk i2 data).dbInsertCalls = 1 ∧
      (deliverRecord cE csO true i1 rA cOk i2 data).dbRows = []) ∧
    (i1 = false → (reconnect rA cOk).2 = true → i2 = false →
      (deliverRecord cE csO true i1 rA cOk i2 data).dbRows = []) ∧
    (i1 = false → (reconnect rA cOk).2 = true → i2 = true →
      (deliverRecord cE csO true i1 rA cOk i2 data).dbRows = [data]) ∧
    ((deliverRecord cE csO true i1 rA cOk i2 data).consoleOut =
      if cE then some data else none) ∧
    ((deliverRecord cE csO true i1 rA cOk i2 data).csvOut =
      if csO then some data else none) := by
  cases i1 <;> cases hrc : (reconnect rA cOk).2 <;> cases i2 <;>
    simp [deliverRecord, hrc, reconnect_le rA cOk]

/-- Witness for C7: first insert fails, the reconnect (3 attempts, first
succeeding) succeeds; a successful retry stores the record once, a failed
retry stores nothing, and the CSV sink receives the record either way. -/
theorem C7_db_retry_witness :
    (deliverRecord true true true false 3 (fun _ => true) true sampleData).dbRows =
      [sampleData] ∧
    (deliverRecord true true true false 3 (fun _ => true) false sampleData).dbRows = [] ∧
    (deliverRecord true true true false 3 (fun _ => true) false sampleData).csvOut =
      some sampleData :=
  ⟨(C7_db_retry true true false 3 (fun _ => true) true sampleData).2.2.2.2.2.1
     rfl (by decide) rfl,
   ((C7_db_retry true true false 3 (fun _ => true) false sampleData).2.2.2.2.1
     rfl (by decide) rfl),
   by simpa using
     (C7_db_retry true true false 3 (fun _ => true) false sampleData).2.2.2.2.2.2.2⟩

/-- C8 is refuted at an all-zero classifier output: every entry ties for the
greatest confidence (0), so the claimed augmentation would be the
earliest-seen maximum ("normal", 0); but the scan's strict `>` against the
initial `maxConfidence = 0.0` never fires and the code attaches
("unknown", 0) instead. -/
theorem C8_classification_counterexample :
    (∀ e ∈ [("normal", (0:ℚ)), ("afib", 0)], e.2 ≤ (0:ℚ)) ∧
    [("normal", (0:ℚ)), ("afib", 0)].head? = some ("normal", 0) ∧
    classificationResult true (some [("normal", (0:ℚ)), ("afib", 0)]) = ("unknown", 0) ∧
    classificationResult true (some [("normal", (0:ℚ)), ("afib", 0)]) ≠ ("normal", 0) ∧
    classificationResult true (some [("normal", (0:ℚ)), ("afib", 0)]) ≠ ("afib", 0) := by
  decide

/-- C8 (amended): when ML classification is enabled, inference succeeds and
some entry has confidence strictly above 0, the record is augmented with the
earliest entry attaining the maximal confidence (the strict-`>` scan); if all
entries are at most 0, or classification is disabled, or inference fails, the
defaults ("unknown", 0.0) are attached; and the sinks receive the record for
every attached classification — augmentation never blocks emission. -/
theorem C8_classification (results other : List (String × ℚ))
    (o : Option (List (String × ℚ)))
    (h : ∃ e ∈ results, 0 < e.2) :
    (∃ pre c post, results = pre ++ c :: post ∧
      classificationResult true (some results) = c ∧ 0 < c.2 ∧
      (∀ e ∈ results, e.2 ≤ c.2) ∧ (∀ e ∈ pre, e.2 < c.2)) ∧
    ((∀ e ∈ other, e.2 ≤ 0) → classificationResult true (some other) = ("unknown", 0)) ∧
    (classificationResult false o = ("unknown", 0)) ∧
    (classificationResult true none = ("unknown", 0)) ∧
    (∀ (cE csO dbA i1 : Bool) (rA : Nat) (cOk : Nat → Bool) (i2 : Bool)
      (d : VitalSignData) (c : String) (q : ℚ),
      ((deliverRecord cE csO dbA i1 rA cOk i2 (setCls d c q)).csvOut).isSome = csO ∧
      ((deliverRecord cE csO dbA i1 rA cOk i2 (setCls d c q)).consoleOut).isSome = cE) := by
  refine ⟨?_, ?_, rfl, rfl, ?_⟩
  · rcases pick_aux results ("unknown", 0) with ⟨_, hall⟩ |
      ⟨pre, c, post, hsplit, heq, hlt, hle, hstrict⟩
    · exfalso
      rcases h with ⟨e, he, hpos⟩
      exact absurd hpos (not_lt.mpr (hall e he))
    · exact ⟨pre, c, post, hsplit, heq, hlt, hle, hstrict⟩
  · intro hnp
    rcases pick_aux other ("unknown", 0) with ⟨heq, _⟩ |
      ⟨pre, c, post, hsplit, _, hlt, _, _⟩
    · exact heq
    · exfalso
      have hc : c ∈ other := by
        rw [hsplit]
        exact List.mem_append_right _ (List.mem_cons_self _ _)
      exact absurd hlt (not_lt.mpr (hnp c hc))
  · intro cE csO dbA i1 rA cOk i2 d c q
    cases hrc : (reconnect rA cOk).2 <;> cases dbA <;> cases i1 <;> cases i2 <;>
      cases cE <;> cases csO <;> simp [deliverRecord, hrc]

/-- Witness for C8: a positive-confidence output, an all-zero output, a
disabled run and a failed inference, at concrete inputs. -/
theorem C8_classification_witness :
    classificationResult true (some [("normal", (0:ℚ)), ("afib", 0)]) = ("unknown", 0) ∧
    classificationResult false (some [("normal", (9/10:ℚ))]) = ("unknown", 0) ∧
    classificationResult true none = ("unknown", 0) ∧
    ((deliverRecord true true true true 3 (fun _ => true) true
        (setCls sampleData "unknown" 0)).csvOut).isSome = true :=
  ⟨(C8_classification [("x", (1:ℚ))] [("normal", (0:ℚ)), ("afib", 0)]
      (some [("normal", (9/10:ℚ))]) ⟨("x", (1:ℚ)), by decide, by decide⟩).2.1 (by decide),
   (C8_classification [("x", (1:ℚ))] [("normal", (0:ℚ)), ("afib", 0)]
      (some [("normal", (9/10:ℚ))]) ⟨("x", (1:ℚ)), by decide, by decide⟩).2.2.1,
   (C8_classification [("x", (1:ℚ))] [("normal", (0:ℚ)), ("afib", 0)]
      (some [("normal", (9/10:ℚ))]) ⟨("x", (1:ℚ)), by decide, by decide⟩).2.2.2.1,
   ((C8_classification [("x", (1:ℚ))] [("normal", (0:ℚ)), ("afib", 0)]
      (some [("normal", (9/10:ℚ))]) ⟨("x", (1:ℚ)), by decide, by decide⟩).2.2.2.2
      true true true true 3 (fun _ => true) true sampleData "unknown" 0).1⟩

end VitalSignExtract
